import Mathlib

set_option maxRecDepth 8000

/-
Shallow embedding of the rfidreader package: the RFIDReader class in
src/rfidreader/hardware.py and the bridge loop in
src/rfidreader/commands/bridge.py.

Bytes are modelled as Nat (values read from the bus are below 256, and the
bitwise masks of the source are applied literally with &&& and |||).
Python exceptions are modelled with Except over an explicit error type.
The I2C bus is modelled by the raw byte string a read returns, together
with the list of frames written to it.
-/

/-- Decidable equality for Except, used to evaluate the embedded functions
on concrete inputs. -/
instance exceptDecEq {ε α : Type} [DecidableEq ε] [DecidableEq α] :
    DecidableEq (Except ε α) := fun x y =>
  match x, y with
  | Except.ok a, Except.ok b =>
    if h : a = b then isTrue (by rw [h])
    else isFalse (by intro hc; injection hc with h2; exact h h2)
  | Except.error a, Except.error b =>
    if h : a = b then isTrue (by rw [h])
    else isFalse (by intro hc; injection hc with h2; exact h h2)
  | Except.ok _, Except.error _ => isFalse (fun hc => Except.noConfusion hc)
  | Except.error _, Except.ok _ => isFalse (fun hc => Except.noConfusion hc)

/-- Python exceptions that the embedded code can raise. -/
inductive PyErr where
  | attributeError (name : String)
  | valueError (msg : String)
  | runtimeError (msg : String)
  | indexError
  deriving DecidableEq, Repr

/-- hardware.py line 45: COMMAND_SLEEP = 0x01. -/
def COMMAND_SLEEP : Nat := 0x01

/-- hardware.py line 48: STATUS_SUCCESS = 0x00. -/
def STATUS_SUCCESS : Nat := 0x00

/-- The class attributes actually defined on RFIDReader (hardware.py lines
44-48): only COMMAND_SLEEP and STATUS_SUCCESS. The constant COMMAND_SELECT,
referenced by select(), is not among them. -/
def classAttrs : List (String × Nat) :=
  [("COMMAND_SLEEP", COMMAND_SLEEP), ("STATUS_SUCCESS", STATUS_SUCCESS)]

/-- Python class-attribute lookup RFIDReader.name: AttributeError when the
name is not defined on the class. -/
def getattr (name : String) : Except PyErr Nat :=
  match classAttrs.lookup name with
  | some v => Except.ok v
  | none => Except.error (PyErr.attributeError name)

/-- RFIDReader.read, hardware.py lines 92-105, on the raw bytes the bus
returned. Following the source line by line: length is taken from the RAW
byte 0 before cleaning; every byte of the cleaned copy is the raw byte with
bit 7 cleared (c and 127); command is cleaned byte 1, status is cleaned
byte 2, and data is the Python slice clean[3:length+1], which truncates
silently when fewer bytes are present. Indexing an absent byte raises
IndexError, exactly where the source indexes. -/
def decode (raw : List Nat) : Except PyErr (Nat × Nat × List Nat) :=
  match raw[0]? with
  | none => Except.error PyErr.indexError
  | some b0 =>
    let length := b0
    let clean := raw.map (fun c => c &&& 127)
    match clean[1]? with
    | none => Except.error PyErr.indexError
    | some command =>
      match clean[2]? with
      | none => Except.error PyErr.indexError
      | some status =>
        Except.ok (command, status, (clean.drop 3).take (length + 1 - 3))

/-- The decoder as the specification words it: the frame length is taken
from the CLEANED byte 0 (bit 7 cleared before use), everything else as in
decode. Stated for comparison with decode, which takes the length from the
raw byte. -/
def decodeSpec (raw : List Nat) : Except PyErr (Nat × Nat × List Nat) :=
  match raw[0]? with
  | none => Except.error PyErr.indexError
  | some b0 =>
    let length := b0 &&& 127
    let clean := raw.map (fun c => c &&& 127)
    match clean[1]? with
    | none => Except.error PyErr.indexError
    | some command =>
      match clean[2]? with
      | none => Except.error PyErr.indexError
      | some status =>
        Except.ok (command, status, (clean.drop 3).take (length + 1 - 3))

/-- RFIDReader.write, hardware.py lines 107-119. The command parameter is a
Python int (validated to 0..255); data is a byte string. Checks run in
source order: the length check first, then the command check. On success
the frame written to the bus is chr(length) + chr(command) + data. -/
def encode (command : Int) (data : List Nat) : Except PyErr (List Nat) :=
  let length := 1 + data.length
  if length > 255 then
    Except.error (PyErr.valueError ("Data must be shorter than 254 bytes"))
  else if ¬ (0 ≤ command ∧ command ≤ 255) then
    Except.error (PyErr.valueError ("Invalid command"))
  else
    Except.ok (length :: command.toNat :: data)

/-- RFIDReader.transaction, hardware.py lines 121-133. resp models the raw
bytes the following bus read returns. First component: the Python return
value or exception; second component: the frames written to the bus. The
response command is compared with the request command unmasked. -/
def transaction (resp : List Nat) (command : Int) (data : List Nat) :
    Except PyErr (Nat × List Nat) × List (List Nat) :=
  match encode command data with
  | Except.error e => (Except.error e, [])
  | Except.ok frame =>
    match decode resp with
    | Except.error e => (Except.error e, [frame])
    | Except.ok (rc, status, rdata) =>
      if (rc : Int) ≠ command then
        (Except.error (PyErr.runtimeError ("Response to invalid command in transaction")), [frame])
      else
        (Except.ok (status, rdata), [frame])

/-- The value select() builds on success, hardware.py line 157:
(ord(data[length-1]), data[:length-1]), i.e. (card type byte, uid bytes). -/
abbrev Card := Nat × List Nat

/-- RFIDReader.select, hardware.py lines 149-157. Its first step evaluates
the expression RFIDReader.COMMAND_SELECT, a class-attribute lookup, before
transaction is entered. On a non-success status it returns None; on success
it returns (ord(data[-1]), data[:-1]), raising IndexError when data is
empty. -/
def select (resp : List Nat) : Except PyErr (Option Card) × List (List Nat) :=
  match getattr ("COMMAND_SELECT") with
  | Except.error e => (Except.error e, [])
  | Except.ok cmd =>
    match transaction resp (cmd : Int) [] with
    | (Except.error e, tr) => (Except.error e, tr)
    | (Except.ok (status, data), tr) =>
      if status ≠ STATUS_SUCCESS then (Except.ok none, tr)
      else
        match data.getLast? with
        | none => (Except.error PyErr.indexError, tr)
        | some t => (Except.ok (some (t, data.dropLast)), tr)

/-- The two events the bridge publishes, bridge.py lines 36-41: a publish on
the presented topic (carrying the select response, of which the code sends
response[1], the uid) and a publish on the removed topic. -/
inductive BridgeEvent where
  | card_presented (info : Card)
  | card_removed
  deriving DecidableEq, Repr

/-- One iteration of the state update in loop(), bridge.py lines 33-41,
applied to the current last-known card and one select() result: returns the
new last-known card and the events published this iteration. -/
def loopStep (present : Option Card) (response : Option Card) :
    Option Card × List BridgeEvent :=
  match response with
  | some info =>
    if present ≠ some info then (some info, [BridgeEvent.card_presented info])
    else (present, [])
  | none =>
    match present with
    | some _ => (none, [BridgeEvent.card_removed])
    | none => (none, [])

/-- The loop() transition logic folded over a finite scripted sequence of
select() results, starting from a given last-known card. Returns the final
state and the concatenated event stream. -/
def loopRun (present : Option Card) : List (Option Card) → Option Card × List BridgeEvent
  | [] => (present, [])
  | r :: rs =>
    let (p, evs) := loopStep present r
    let (pf, rest) := loopRun p rs
    (pf, evs ++ rest)

/-- Well-formedness of an event stream relative to a last-known card: a
presented event must carry a card different from the tracked one (no
duplicate presentation of an unchanged card) and a removed event requires a
tracked card (so, from an initial None, a prior presented event). -/
def traceOk (last : Option Card) : List BridgeEvent → Bool
  | [] => true
  | BridgeEvent.card_presented c :: rest =>
    if last = some c then false else traceOk (some c) rest
  | BridgeEvent.card_removed :: rest =>
    if last = none then false else traceOk none rest

/-- One iteration of loop() driving the real select (bridge.py line 34):
the select() result feeds the transition logic, and an exception raised by
select propagates out of the iteration before any event is published. -/
def loopIter (resp : List Nat) (present : Option Card) :
    Except PyErr (Option Card × List BridgeEvent) :=
  match (select resp).1 with
  | Except.error e => Except.error e
  | Except.ok r => Except.ok (loopStep present r)

/-- The test-harness step of the round-trip property: set the most
significant bit of every byte of a frame, as the module does on the wire. -/
def msbSet (frame : List Nat) : List Nat := frame.map (fun b => b ||| 128)

/-- The round trip of the specification: encode a request frame, set the
MSB of every byte as the wire would, and decode the result. -/
def roundTrip (command : Int) (data : List Nat) :
    Except PyErr (Nat × Nat × List Nat) :=
  match encode command data with
  | Except.error e => Except.error e
  | Except.ok frame => decode (msbSet frame)

/-- Outcome of the CPython call fcntl.ioctl(self.bus, I2C_SLAVE, address):
on failure it raises; on success it returns the integer result of the
ioctl, which for I2C_SLAVE is 0 — it never returns None. The None case is
representable here only because the source tests the result against None. -/
inductive IoctlResult where
  | raised (e : PyErr)
  | returned (v : Option Int)
  deriving DecidableEq, Repr

/-- The slave-address binding step of RFIDReader.init, hardware.py lines
60-64: error = fcntl.ioctl(...); if error is not None: raise RuntimeError. -/
def initSlaveBind (r : IoctlResult) : Except PyErr Unit :=
  match r with
  | IoctlResult.raised e => Except.error e
  | IoctlResult.returned v =>
    if v ≠ none then
      Except.error (PyErr.runtimeError ("Couldnt set the slave address:"))
    else
      Except.ok ()

/-- Masking a byte with 127 gives a value below 128. -/
lemma and127_lt (b : Nat) : b &&& 127 < 128 :=
  Nat.lt_succ_of_le Nat.and_le_right

/-- Masking with 127 is reduction modulo 128. -/
lemma and127_eq_mod (b : Nat) : b &&& 127 = b % 128 := by
  have h := Nat.and_pow_two_sub_one_eq_mod b 7
  norm_num at h
  exact h

/-- Masking with 127 leaves a byte below 128 unchanged. -/
lemma and127_eq_self (b : Nat) (h : b < 128) : b &&& 127 = b := by
  rw [and127_eq_mod, Nat.mod_eq_of_lt h]

/-- Setting bit 7 and then clearing it is the same as clearing it. -/
lemma lor128_and127 (b : Nat) : (b ||| 128) &&& 127 = b &&& 127 := by
  apply Nat.eq_of_testBit_eq
  intro i
  simp only [Nat.testBit_land, Nat.testBit_lor]
  rcases Nat.lt_or_ge i 7 with h | h
  · have h128 : (128 : Nat).testBit i = false := by
      rw [show (128 : Nat) = 2 ^ 7 by norm_num, Nat.testBit_two_pow]
      simp only [decide_eq_false_iff_not]
      omega
    simp [h128]
  · have h127 : (127 : Nat).testBit i = false := by
      rw [show (127 : Nat) = 2 ^ 7 - 1 by norm_num, Nat.testBit_two_pow_sub_one]
      simp only [decide_eq_false_iff_not]
      omega
    simp [h127]

/-- A number never shrinks under bitwise or. -/
lemma self_le_lor (a b : Nat) : a ≤ a ||| b := by
  conv_lhs => rw [show a = a &&& (a ||| b) from by
    apply Nat.eq_of_testBit_eq
    intro i
    simp only [Nat.testBit_land, Nat.testBit_lor]
    cases a.testBit i <;> simp]
  exact Nat.and_le_right

/-- Every field of a successful decode is a masked byte: command and status
are below 128, and so is every data byte. -/
lemma decode_ok_bounds {raw : List Nat} {c s : Nat} {d : List Nat}
    (h : decode raw = Except.ok (c, s, d)) :
    c < 128 ∧ s < 128 ∧ ∀ x ∈ d, x < 128 := by
  match raw with
  | [] => simp [decode] at h
  | [a] => simp [decode] at h
  | [a, b] => simp [decode] at h
  | a :: b :: e :: rest =>
    simp only [decode, List.getElem?_cons_zero, List.map_cons, List.getElem?_cons_succ,
      List.drop_succ_cons, List.drop_zero, Except.ok.injEq, Prod.mk.injEq] at h
    obtain ⟨hc, hs, hd⟩ := h
    refine ⟨hc ▸ and127_lt b, hs ▸ and127_lt e, ?_⟩
    intro x hx
    rw [← hd] at hx
    have hx2 : x ∈ rest.map (fun c => c &&& 127) := List.mem_of_mem_take hx
    obtain ⟨y, _, hy⟩ := List.mem_map.mp hx2
    exact hy ▸ and127_lt y

/-- C1: the spec says select() returns None exactly on a non-success status
and otherwise a CardInfo splitting the data into uid and type; evaluated on
the mocked bus response that encodes command=SELECT, status=SUCCESS,
data=[1,2,3,4] with the MSB set on every wire byte, the code instead raises
AttributeError for the undefined constant COMMAND_SELECT before writing
anything to the bus, so no CardInfo is ever produced. -/
theorem select_mocked_success_raises_attribute_error :
    select [134, 129, 128, 129, 130, 131, 132] =
      (Except.error (PyErr.attributeError ("COMMAND_SELECT")), []) := by
  decide

/-- C2: for every bus response and every last-known card, select() fails
with AttributeError for COMMAND_SELECT having performed no bus write, and a
bridge-loop iteration driving the real select() propagates that same error
without publishing any event; select can never return a card or None. -/
theorem select_always_raises_attribute_error :
    ∀ (resp : List Nat) (present : Option Card),
      select resp = (Except.error (PyErr.attributeError ("COMMAND_SELECT")), []) ∧
      loopIter resp present = Except.error (PyErr.attributeError ("COMMAND_SELECT")) := by
  intro resp present
  have hs : select resp =
      (Except.error (PyErr.attributeError ("COMMAND_SELECT")), []) := rfl
  exact ⟨hs, by simp [loopIter, hs]⟩

/-- C3, counterexample: the claim says the frame length is taken from the
cleaned byte 0, but decode reads it from the raw byte 0 before the MSB is
cleared. On raw = [132, 1, 0, 1, 2, 3] the code uses length 132 and returns
data [1, 2, 3], while the spec decoder (length = cleaned byte 0 = 4)
returns data [1, 2]. -/
theorem decode_length_uses_raw_byte :
    decode [132, 1, 0, 1, 2, 3] = Except.ok (1, 0, [1, 2, 3]) ∧
    decodeSpec [132, 1, 0, 1, 2, 3] = Except.ok (1, 0, [1, 2]) ∧
    decode [132, 1, 0, 1, 2, 3] ≠ decodeSpec [132, 1, 0, 1, 2, 3] := by
  refine ⟨by decide, by decide, by decide⟩

/-- C3, amended: command, status and every data byte are interpreted from
MSB-cleared bytes, but the frame length is taken from the raw byte 0
without clearing bit 7; consequently decode agrees with the fully cleaned
spec decoder exactly on responses whose length byte already has bit 7
clear. -/
theorem decode_masks_fields_but_not_length :
    ∀ raw : List Nat,
      (∀ c s d, decode raw = Except.ok (c, s, d) →
        c < 128 ∧ s < 128 ∧ ∀ x ∈ d, x < 128) ∧
      (∀ b0, raw[0]? = some b0 → b0 < 128 → decode raw = decodeSpec raw) := by
  intro raw
  refine ⟨fun c s d h => decode_ok_bounds h, ?_⟩
  intro b0 h0 hlt
  simp only [decode, decodeSpec, h0, and127_eq_self b0 hlt]

/-- Witness for the amended C3 at a concrete input with a cleared length
bit. -/
theorem decode_masks_fields_but_not_length_witness :
    decode [5, 1, 0, 9] = decodeSpec [5, 1, 0, 9] :=
  (decode_masks_fields_but_not_length [5, 1, 0, 9]).2 5 rfl (by decide)

/-- C4, counterexample: the claim says decode fails with ShortFrame
whenever the raw response has fewer than length+1 bytes; on the raw
response [5, 1, 0, 1], which has 4 bytes while its length byte demands 6,
decode succeeds, returning the truncated data [1]. -/
theorem decode_short_frame_succeeds :
    decode [5, 1, 0, 1] = Except.ok (1, 0, [1]) ∧ 4 < 5 + 1 := by
  refine ⟨by decide, by decide⟩

/-- C4, amended: decode never checks the length prefix against the number
of bytes actually received: with at least 3 raw bytes it always succeeds
(the data slice truncates silently), and with fewer than 3 raw bytes it
fails with IndexError. -/
theorem decode_no_short_frame_check :
    ∀ raw : List Nat,
      (3 ≤ raw.length → ∃ c s d, decode raw = Except.ok (c, s, d)) ∧
      (raw.length < 3 → decode raw = Except.error PyErr.indexError) := by
  intro raw
  match raw with
  | [] => exact ⟨fun h => absurd h (by simp), fun _ => rfl⟩
  | [a] => exact ⟨fun h => absurd h (by simp), fun _ => rfl⟩
  | [a, b] => exact ⟨fun h => absurd h (by simp), fun _ => rfl⟩
  | a :: b :: e :: rest =>
    refine ⟨fun _ => ⟨b &&& 127, e &&& 127,
      (rest.map (fun c => c &&& 127)).take (a + 1 - 3), ?_⟩, fun h => absurd h (by simp)⟩
    simp [decode]

/-- Witness for the amended C4: a long-enough response decodes, a
two-byte response raises IndexError. -/
theorem decode_no_short_frame_check_witness :
    (∃ c s d, decode [10, 1, 0, 1] = Except.ok (c, s, d)) ∧
    decode [7, 7] = Except.error PyErr.indexError :=
  ⟨(decode_no_short_frame_check [10, 1, 0, 1]).1 (by decide),
   (decode_no_short_frame_check [7, 7]).2 (by decide)⟩

/-- Setting then clearing the MSB over a list of bytes below 128 is the
identity. -/
lemma mask_unmask_map :
    ∀ l : List Nat, (∀ x ∈ l, x < 128) →
      (l.map (fun b => b ||| 128)).map (fun c => c &&& 127) = l := by
  intro l hl
  induction l with
  | nil => rfl
  | cons x xs ih =>
    simp only [List.map_cons, List.cons.injEq]
    refine ⟨by rw [lor128_and127, and127_eq_self x (hl x (by simp))], ?_⟩
    exact ih (fun y hy => hl y (by simp [hy]))

/-- C5, counterexample: the claimed round trip fails because a request
frame carries no status byte. Encoding command 1 with data [2, 3], setting
the MSB of every wire byte and decoding yields command 1, status 2 (the
first data byte) and data [3] — not the original data [2, 3] and not any
encoded status. -/
theorem roundtrip_loses_first_data_byte :
    encode 1 [2, 3] = Except.ok [3, 1, 2, 3] ∧
    roundTrip 1 [2, 3] = Except.ok (1, 2, [3]) ∧
    roundTrip 1 [2, 3] ≠ Except.ok (1, 2, [2, 3]) := by
  refine ⟨by decide, by decide, by decide⟩

/-- C5, amended: for a command at most 127 and nonempty data of at most 254
bytes all below 128, decoding the MSB-set encoding returns the command, the
FIRST data byte in the status position, and the remaining data bytes as
data; with empty data the decode fails with IndexError. The spec round trip
(command, encoded status, original data) does not hold because request
frames have no status field. -/
theorem roundtrip_shifts_payload :
    ∀ (command : Int) (d0 : Nat) (rest : List Nat),
      0 ≤ command → command ≤ 127 → rest.length ≤ 253 →
      d0 < 128 → (∀ x ∈ rest, x < 128) →
      roundTrip command (d0 :: rest) = Except.ok (command.toNat, d0, rest) ∧
      roundTrip command [] = Except.error PyErr.indexError := by
  intro command d0 rest h0 h127 hlen hd0 hrest
  have hcmd : (0 ≤ command ∧ command ≤ 255) := ⟨h0, by omega⟩
  have hcn : command.toNat < 128 := by omega
  constructor
  · have henc : encode command (d0 :: rest) =
        Except.ok ((1 + (d0 :: rest).length) :: command.toNat :: d0 :: rest) := by
      simp only [encode]
      rw [if_neg (by simp; omega), if_neg (not_not_intro hcmd)]
    have hL : (1 + (d0 :: rest).length) = 2 + rest.length := by simp; omega
    simp only [roundTrip, henc, msbSet, List.map_cons, hL]
    have htail := mask_unmask_map rest hrest
    simp only [decode, List.getElem?_cons_zero, List.map_cons, List.getElem?_cons_succ,
      lor128_and127, and127_eq_self command.toNat hcn, and127_eq_self d0 hd0,
      List.drop_succ_cons, List.drop_zero, htail]
    have htake : rest.take (((2 + rest.length) ||| 128) + 1 - 3) = rest := by
      apply List.take_of_length_le
      have := self_le_lor (2 + rest.length) 128
      omega
    rw [htake]
  · have henc : encode command [] = Except.ok [1, command.toNat] := by
      simp only [encode]
      rw [if_neg (by simp), if_neg (not_not_intro hcmd)]
      simp
    simp [roundTrip, henc, msbSet, decode]

/-- Witness for the amended C5 at command 5, data [7, 9]. -/
theorem roundtrip_shifts_payload_witness :
    roundTrip 5 [7, 9] = Except.ok (5, 7, [9]) ∧
    roundTrip 5 [] = Except.error PyErr.indexError := by
  have h := roundtrip_shifts_payload 5 7 [9]
    (by decide) (by decide) (by decide) (by decide) (by decide)
  simpa using h

/-- Every event stream the loop transition logic produces is well formed
with respect to the state it starts from. -/
lemma traceOk_loopRun :
    ∀ (script : List (Option Card)) (s : Option Card),
      traceOk s (loopRun s script).2 = true := by
  intro script
  induction script with
  | nil => intro s; rfl
  | cons r rs ih =>
    intro s
    match r with
    | some info =>
      by_cases h : s = some info
      · simp [loopRun, loopStep, h, ih]
      · simp [loopRun, loopStep, h, traceOk, ih]
    | none =>
      match s with
      | some c => simp [loopRun, loopStep, traceOk, ih]
      | none => simp [loopRun, loopStep, ih]

/-- C6: the transition logic emits card_presented(info) exactly when the
select result is some info different from the last-known card, emits
card_removed exactly when the result is None while a card was known, and
nothing otherwise; the scripted sequence [None, A, A, None, B, None]
produces exactly [presented A, removed, presented B, removed]; and every
stream produced from the initial None state is well formed: no presented
event repeats the tracked card and no removed event occurs without a
tracked card, i.e. without a prior presented event. -/
theorem loop_transition_logic :
    (∀ (last : Option Card) (info : Card),
      (loopStep last (some info)).2 =
        if last = some info then [] else [BridgeEvent.card_presented info]) ∧
    (∀ last : Option Card,
      (loopStep last none).2 =
        if last.isSome then [BridgeEvent.card_removed] else []) ∧
    (∀ A B : Card,
      (loopRun none [none, some A, some A, none, some B, none]).2 =
        [BridgeEvent.card_presented A, BridgeEvent.card_removed,
         BridgeEvent.card_presented B, BridgeEvent.card_removed]) ∧
    (∀ script : List (Option Card), traceOk none (loopRun none script).2 = true) := by
  refine ⟨?_, ?_, ?_, fun script => traceOk_loopRun script none⟩
  · intro last info
    by_cases h : last = some info <;> simp [loopStep, h]
  · intro last
    match last with
    | some c => simp [loopStep]
    | none => simp [loopStep]
  · intro A B
    simp [loopRun, loopStep]

/-- C7: transaction fails with the command-mismatch RuntimeError whenever
the decoded response command differs from the request command, whatever the
status, and returns the decoded (status, data) when they match. -/
theorem transaction_command_mismatch :
    ∀ (resp : List Nat) (command : Int) (data frame : List Nat)
      (rc status : Nat) (rdata : List Nat),
      encode command data = Except.ok frame →
      decode resp = Except.ok (rc, status, rdata) →
      (((rc : Int) ≠ command → (transaction resp command data).1 =
          Except.error (PyErr.runtimeError ("Response to invalid command in transaction"))) ∧
       ((rc : Int) = command → (transaction resp command data).1 =
          Except.ok (status, rdata))) := by
  intro resp command data frame rc status rdata henc hdec
  constructor
  · intro hne
    simp only [transaction, henc, hdec]
    rw [if_pos hne]
  · intro heq
    simp only [transaction, henc, hdec]
    rw [if_neg (not_not_intro heq)]

/-- Witness for C7: response command 2 against request command 1, with a
success status, fails with the mismatch error. -/
theorem transaction_command_mismatch_witness :
    (transaction [3, 2, 0, 7] 1 []).1 =
      Except.error (PyErr.runtimeError ("Response to invalid command in transaction")) :=
  (transaction_command_mismatch [3, 2, 0, 7] 1 [] [1, 1] 2 0 [7]
    (by decide) (by decide)).1 (by decide)

/-- C8: the spec says construction fails with AddressBindError exactly when
the set-slave-address ioctl reports failure; but CPython fcntl.ioctl
returns the integer ioctl result (0 for a successful I2C_SLAVE call), never
None, and the code raises whenever the result is not None — so the binding
step raises its RuntimeError even when the control call succeeds. -/
theorem init_raises_on_successful_ioctl :
    initSlaveBind (IoctlResult.returned (some 0)) =
      Except.error (PyErr.runtimeError ("Couldnt set the slave address:")) := by
  decide

/-- C9, counterexample: with a command outside 0..=255 AND data longer than
254 bytes, encode raises the payload error, not the invalid-command error:
the length check runs first. -/
theorem encode_both_invalid_raises_payload_error :
    encode 256 (List.replicate 255 0) =
      Except.error (PyErr.valueError ("Data must be shorter than 254 bytes")) ∧
    ¬ (0 ≤ (256 : Int) ∧ (256 : Int) ≤ 255) ∧
    encode 256 (List.replicate 255 0) ≠
      Except.error (PyErr.valueError ("Invalid command")) := by
  have h1 : encode 256 (List.replicate 255 0) =
      Except.error (PyErr.valueError ("Data must be shorter than 254 bytes")) := by
    simp [encode]
  refine ⟨h1, by norm_num, ?_⟩
  rw [h1]
  decide

/-- C9, amended: encode fails with the payload error exactly when the data
exceeds 254 bytes; it fails with the invalid-command error exactly when the
data fits AND the command is outside 0..=255 (the length check takes
precedence); and on valid input it writes [1+len(data), command, data...]
with no MSB manipulation. -/
theorem encode_error_precedence :
    ∀ (command : Int) (data : List Nat),
      (encode command data =
          Except.error (PyErr.valueError ("Data must be shorter than 254 bytes")) ↔
        254 < data.length) ∧
      (encode command data = Except.error (PyErr.valueError ("Invalid command")) ↔
        (data.length ≤ 254 ∧ ¬ (0 ≤ command ∧ command ≤ 255))) ∧
      (data.length ≤ 254 → 0 ≤ command → command ≤ 255 →
        encode command data = Except.ok ((1 + data.length) :: command.toNat :: data)) := by
  intro command data
  by_cases h1 : 1 + data.length > 255
  · simp only [encode]
    rw [if_pos h1]
    exact ⟨⟨fun _ => by omega, fun _ => rfl⟩,
           ⟨fun h => absurd h (by decide), fun ⟨hl, _⟩ => by omega⟩,
           fun hl _ _ => absurd h1 (by omega)⟩
  · by_cases h2 : 0 ≤ command ∧ command ≤ 255
    · simp only [encode]
      rw [if_neg h1, if_neg (not_not_intro h2)]
      exact ⟨⟨fun h => Except.noConfusion h, fun h => by omega⟩,
             ⟨fun h => Except.noConfusion h, fun ⟨_, hc⟩ => absurd h2 hc⟩,
             fun _ _ _ => rfl⟩
    · simp only [encode]
      rw [if_neg h1, if_pos h2]
      exact ⟨⟨fun h => absurd h (by decide), fun h => by omega⟩,
             ⟨fun _ => ⟨by omega, h2⟩, fun _ => rfl⟩,
             fun _ hc1 hc2 => absurd ⟨hc1, hc2⟩ h2⟩

/-- Witness for the amended C9 on a valid command and payload. -/
theorem encode_error_precedence_witness :
    encode 7 [1, 2] = Except.ok [3, 7, 1, 2] := by
  have h := (encode_error_precedence 7 [1, 2]).2.2 (by decide) (by decide) (by decide)
  simpa using h

/-- C10: for every request command in 128..=255 (accepted by the encode
validation) and every response that decodes, transaction fails with the
command-mismatch error, because the decoded response command has bit 7
cleared (so is below 128) while the request command is compared unmasked;
and whenever transaction returns successfully the request command was in
0..=127. -/
theorem transaction_high_command_always_mismatch :
    ∀ (resp : List Nat) (command : Int) (data : List Nat),
      (128 ≤ command → command ≤ 255 → data.length ≤ 254 →
        ∀ rc status rdata, decode resp = Except.ok (rc, status, rdata) →
          (transaction resp command data).1 =
            Except.error (PyErr.runtimeError ("Response to invalid command in transaction"))) ∧
      (∀ status rdata, (transaction resp command data).1 = Except.ok (status, rdata) →
        0 ≤ command ∧ command ≤ 127) := by
  intro resp command data
  constructor
  · intro h128 h255 hlen rc status rdata hdec
    have henc : encode command data =
        Except.ok ((1 + data.length) :: command.toNat :: data) := by
      simp only [encode]
      rw [if_neg (by omega), if_neg (not_not_intro ⟨by omega, h255⟩)]
    have hrc : rc < 128 := (decode_ok_bounds hdec).1
    have hne : (rc : Int) ≠ command := by omega
    simp only [transaction, henc, hdec]
    rw [if_pos hne]
  · intro status rdata h
    cases henc : encode command data with
    | error e =>
      simp only [transaction, henc] at h
      exact Except.noConfusion h
    | ok frame =>
      cases hdec : decode resp with
      | error e =>
        simp only [transaction, henc, hdec] at h
        exact Except.noConfusion h
      | ok triple =>
        obtain ⟨rc, st, rd⟩ := triple
        by_cases hne : (rc : Int) ≠ command
        · simp only [transaction, henc, hdec] at h
          rw [if_pos hne] at h
          simp at h
        · push_neg at hne
          have hrc : rc < 128 := (decode_ok_bounds hdec).1
          omega

/-- Witness for C10: request command 200 against a decodable response with
response command 1 fails with the mismatch error. -/
theorem transaction_high_command_always_mismatch_witness :
    (transaction [3, 1, 0, 9] 200 []).1 =
      Except.error (PyErr.runtimeError ("Response to invalid command in transaction")) :=
  (transaction_high_command_always_mismatch [3, 1, 0, 9] 200 []).1
    (by decide) (by decide) (by decide) 1 0 [9] (by decide)
